import Mathlib

/-!
Shallow embedding of the `emacs_porthole` Python client
(`src/emacs_porthole/core.py`, `src/emacs_porthole/json_rpc.py`,
`src/emacs_porthole/exceptions.py`), covering the session-resolution and
retry protocol, server-name validation, response validation and the
Basic-auth / timeout plumbing of `_try_to_post`.

Python exceptions are modelled by the `Exc` type and fallible functions
return `Except Exc _`.  Stateful code (the module-level session cache,
disk reads, network posts) is modelled by explicit state passing over
`CallState`, with the external world (session file contents, network
behaviour) captured in a `World` record.
-/

namespace Porthole

/-- JSON values as produced by Python's `json.loads`: objects are
association lists (key order is irrelevant to every use below, where the
right-hand operand of a comparison is always an atom). `null` also stands
for Python's `None`, which is how `dict.get` reports an absent key. -/
inductive Json where
  | null : Json
  | bool (b : Bool) : Json
  | num (n : Int) : Json
  | str (s : String) : Json
  | arr (xs : List Json) : Json
  | obj (kvs : List (String × Json)) : Json
deriving Repr

mutual

/-- Python `==` on decoded JSON values (used only with an atomic operand). -/
def Json.beq : Json → Json → Bool
  | .null, .null => true
  | .bool a, .bool b => a == b
  | .num a, .num b => a == b
  | .str a, .str b => a == b
  | .arr a, .arr b => Json.beqList a b
  | .obj a, .obj b => Json.beqObj a b
  | _, _ => false

def Json.beqList : List Json → List Json → Bool
  | [], [] => true
  | x :: xs, y :: ys => Json.beq x y && Json.beqList xs ys
  | _, _ => false

def Json.beqObj : List (String × Json) → List (String × Json) → Bool
  | [], [] => true
  | (k1, v1) :: xs, (k2, v2) :: ys => k1 == k2 && Json.beq v1 v2 && Json.beqObj xs ys
  | _, _ => false

end

/-- Python exceptions that can escape the functions modelled here. -/
inductive ReqErr where
  /-- `requests.exceptions.ConnectionError` -/
  | connectionError : ReqErr
  /-- `requests.exceptions.Timeout` -/
  | timeout : ReqErr
  /-- any other `requests.exceptions.RequestException` -/
  | otherError : ReqErr
deriving DecidableEq, Repr

/-- Exceptions of the embedded code. `requests e` is a raw exception from
the `requests` library; the rest are Python builtins or the porthole
exception classes of `exceptions.py`. -/
inductive Exc where
  /-- Python `ValueError` (invalid server name, missing port, ...) -/
  | valueError : Exc
  /-- Python `AssertionError` (from `assert isinstance(server_name, str)`) -/
  | assertionError : Exc
  /-- `json.JSONDecodeError` raised by `json.load` on an unparseable file
  (a subclass of `ValueError`, not of `requests.RequestException`) -/
  | jsonDecodeError : Exc
  /-- Python `KeyError` (cache lookup of an absent key) -/
  | keyError : Exc
  /-- Python `AttributeError` (e.g. `list.get` does not exist) -/
  | attributeError : Exc
  /-- Python `TypeError` (e.g. `"id" in 5`) -/
  | typeError : Exc
  /-- a raw exception from the `requests` library -/
  | requests (e : ReqErr) : Exc
  /-- `ServerNotRunningError` (itself a subclass of
  `requests.exceptions.ConnectionError`, see `exceptions.py`) -/
  | serverNotRunning : Exc
  /-- porthole `TimeoutError` -/
  | timeoutError : Exc
  /-- `StrangeResponseError` -/
  | strangeResponse : Exc
  /-- `HTTPError`, carrying the HTTP status code -/
  | httpError (status : Nat) : Exc
deriving DecidableEq, Repr

/-- A session descriptor as parsed from the session file: the dictionary
`{"port": ..., "username": ..., "password": ...}` where any member may be
absent (`core.py` line 36-48). Equality is Python dict equality restricted
to these keys. -/
structure Session where
  port : Option Int
  username : Option String
  password : Option String
deriving DecidableEq, Repr

/-- The state of the on-disk session file for the server under test:
missing, present but not parseable as JSON, or present with a parsed
descriptor. -/
inductive DiskFile where
  | missing : DiskFile
  | invalid : DiskFile
  | valid (s : Session) : DiskFile
deriving Repr

/-- The text of an HTTP response body: either not valid JSON, or a JSON
value (what `json.loads` returns on it). -/
inductive Body where
  | invalid (s : String) : Body
  | value (v : Json) : Body
deriving Repr

/-- A raw HTTP response as seen through `requests.Response`:
status code, `Content-Type` header, body text. -/
structure HttpResponse where
  status : Nat
  contentType : Option String
  body : Body
deriving Repr

/-- The tuple returned by `_try_to_post`: either `(response, None)` or
`(None, requests_error)`. -/
inductive Posted where
  | resp (r : HttpResponse) : Posted
  | failed (e : ReqErr) : Posted
deriving Repr

/-- Record of one `requests.post` call: which descriptor it targeted,
the address, the basic-auth tuple passed (or `None`), and the timeout. -/
structure PostRecord where
  session : Session
  address : String
  auth : Option (String × String)
  timeout : ℚ
deriving DecidableEq, Repr

/-- Mutable call state: the module-level `_server_info_cache` dictionary,
plus instrumentation counting session-file reads and logging every
network post performed. -/
structure CallState where
  cache : List (String × Session)
  diskReads : Nat
  posts : List PostRecord
deriving Repr

/-- The external world one call runs against: the session file contents
and the behaviour of the network, giving the outcome of the i-th POST
performed during the call. -/
structure World where
  disk : DiskFile
  net : Nat → Posted

/-- Python dict assignment `d[k] = v` on an association list. -/
def dictSet (c : List (String × Session)) (k : String) (v : Session) :
    List (String × Session) :=
  if c.any (fun kv => kv.1 == k) then
    c.map (fun kv => if kv.1 == k then (k, v) else kv)
  else
    c ++ [(k, v)]

/-- Does the character list `n` start the character list `h`? -/
def startsWith : List Char → List Char → Bool
  | [], _ => true
  | _ :: _, [] => false
  | a :: as, b :: bs => a == b && startsWith as bs

/-- Does `n` occur contiguously inside `h`?  (Python `n in h` on `str`.) -/
def occursIn (n : List Char) : List Char → Bool
  | [] => n.isEmpty
  | c :: rest => startsWith n (c :: rest) || occursIn n rest

/-- Python `key in x` on a decoded JSON value.  On a dict it is key
membership; on a list it is element membership (`==` against each
element); on a string it is the substring test; on `None`, booleans and
numbers it raises `TypeError` ("argument of type ... is not iterable"). -/
def pyContains (key : String) : Json → Except Exc Bool
  | .obj kvs => .ok (kvs.any (fun kv => kv.1 == key))
  | .arr xs => .ok (xs.any (fun x => Json.beq x (.str key)))
  | .str s => .ok (occursIn key.data s.data)
  | .null => .error .typeError
  | .bool _ => .error .typeError
  | .num _ => .error .typeError

/-- Python `x.get(key)` on a decoded JSON value: only dicts have a `get`
method (absent key gives `None`, i.e. `Json.null`); every other decoded
value raises `AttributeError`. -/
def pyGet (j : Json) (key : String) : Except Exc Json :=
  match j with
  | .obj kvs => .ok ((kvs.lookup key).getD .null)
  | _ => .error .attributeError

/-- `utils.is_string` on a decoded JSON value. -/
def is_string : Json → Bool
  | .str _ => true
  | _ => false

/-- Python `isinstance(x, int)` on a decoded JSON value.  Note that in
Python `bool` is a subclass of `int`, so booleans count. -/
def isinstance_int : Json → Bool
  | .num _ => true
  | .bool _ => true
  | _ => false

/-- `json_rpc._valid_error`: is `error_part` a dict with keys `code`,
`message` and `data`?  Total: `isinstance(error_part, dict)` is checked
first and `and` short-circuits. -/
def valid_error_part : Json → Bool
  | .obj kvs =>
    kvs.any (fun kv => kv.1 == "code")
      && kvs.any (fun kv => kv.1 == "message")
      && kvs.any (fun kv => kv.1 == "data")
  | _ => false

/-- `json_rpc.valid_response`.  The source computes `has_id`, `id_`,
`valid_id`, `has_result` and `valid_error` eagerly, in this order,
*before* the final conjunction that begins `isinstance(response, dict)`;
so on a non-dict argument the eager `response.get("id")` (or, for
non-iterable arguments, already `"id" in response`) raises instead of the
function returning `False`.  In the final conjunction,
`response.get("jsonrpc")` is only reached when `response` is a dict,
because Python `and` short-circuits. -/
def valid_response (response : Json) : Except Exc Bool :=
  match pyContains "id" response with
  | .error e => .error e
  | .ok has_id =>
  match pyGet response "id" with
  | .error e => .error e
  | .ok id_ =>
  let valid_id := has_id && (is_string id_ || isinstance_int id_
    || (match id_ with | .null => true | _ => false))
  match pyContains "result" response with
  | .error e => .error e
  | .ok has_result =>
  match pyGet response "error" with
  | .error e => .error e
  | .ok error_part =>
  let valid_error := valid_error_part error_part
  .ok (match response with
    | .obj kvs =>
      Json.beq ((kvs.lookup "jsonrpc").getD .null) (.str "2.0")
        && valid_id && (has_result || valid_error)
    | _ => false)

/-- `json_rpc.valid_response_string`: decode the body (a decode failure
returns `False`), then run `valid_response` on the decoded value. -/
def valid_response_string (b : Body) : Except Exc Bool :=
  match b with
  | .invalid _ => .ok false
  | .value v => valid_response v

/-- `core._response_ok`: `response and response.status_code == 200 and
response.headers.get("Content-Type") == "application/json" and
json_rpc.valid_response_string(response.text)`, with Python
short-circuiting.  (`bool(response)` is `status < 400`; a falsy response
makes the chain falsy exactly as the `status == 200` conjunct does, so it
needs no separate case.)  `valid_response_string` may raise, hence the
`Except`. -/
def response_ok (r : HttpResponse) : Except Exc Bool :=
  if r.status == 200 then
    if r.contentType == some "application/json" then
      valid_response_string r.body
    else .ok false
  else .ok false

/-- Default timeout, in seconds (`core.DEFAULT_TIMEOUT = 1`). -/
def DEFAULT_TIMEOUT : ℚ := 1

/-- `core._construct_address`. -/
def construct_address (port : Int) : String :=
  "http://127.0.0.1:" ++ toString port

/-- A character of the class `[a-zA-Z0-9-]`. -/
def isNameChar (c : Char) : Bool :=
  ('a' ≤ c && c ≤ 'z') || ('A' ≤ c && c ≤ 'Z') || ('0' ≤ c && c ≤ '9') || c == '-'

/-- One or more characters of `[a-zA-Z0-9-]`. -/
def allNameChars (cs : List Char) : Bool :=
  !cs.isEmpty && cs.all isNameChar

/-- Python `re.match("^[a-zA-Z0-9-]+$", s)` as a truth value.  In Python
(without `re.MULTILINE`) `$` matches at the end of the string *or just
before a newline at the end of the string*, so this accepts exactly the
strings of `[a-zA-Z0-9-]+` optionally followed by one final newline. -/
def re_match_server_name (s : String) : Bool :=
  allNameChars s.data
    || (match s.data.getLast? with
        | some c => c == '\n' && allNameChars s.data.dropLast
        | none => false)

/-- Possible Python values handed to `validate_server_name` as the server
name: a string, or a non-string such as an `int` or `None`. -/
inductive PyVal where
  | str (s : String) : PyVal
  | int (n : Int) : PyVal
  | pyNone : PyVal
deriving DecidableEq, Repr

/-- `core.validate_server_name`: `assert isinstance(server_name, str)`,
then `ValueError` unless `re.match("^[a-zA-Z0-9-]+$", server_name)`. -/
def validate_server_name (server_name : PyVal) : Except Exc Unit :=
  match server_name with
  | .str s => if re_match_server_name s then .ok () else .error .valueError
  | _ => .error .assertionError

/-- Python truthiness of `session.get("username")`: `None` and the empty
string are falsy. -/
def truthyOptStr : Option String → Bool
  | some s => !(s == "")
  | none => false

/-- Python `x or ""` for `x : Option String`. -/
def orEmpty : Option String → String
  | some s => if s == "" then "" else s
  | none => ""

/-- `core._try_to_post`.  Raises `ValueError` when the session dict has no
`"port"` key; replaces a falsy timeout (`None` — and also `0`) with
`DEFAULT_TIMEOUT`; sends basic auth `(username or "", password or "")`
when `username or password` is truthy and no auth otherwise; then
performs the POST, returning `(response, None)` on transport success and
`(None, error)` on a `requests.exceptions.RequestException`. -/
def try_to_post (w : World) (server_name : String) (session : Session)
    (timeout : Option ℚ) (st : CallState) : CallState × Except Exc Posted :=
  match session.port with
  | none => (st, .error .valueError)
  | some port =>
    let t : ℚ :=
      match timeout with
      | none => DEFAULT_TIMEOUT
      | some x => if x == 0 then DEFAULT_TIMEOUT else x
    let address := construct_address port
    let username := session.username
    let password := session.password
    let auth : Option (String × String) :=
      if truthyOptStr username || truthyOptStr password then
        some (orEmpty username, orEmpty password)
      else none
    let outcome := w.net st.posts.length
    let st' := { st with posts := st.posts ++ [⟨session, address, auth, t⟩] }
    (st', .ok outcome)

/-- `core._session_from_file`: a read of the session store.  A missing
file raises `ServerNotRunningError`; a file that exists but cannot be
parsed lets `json.load`'s `JSONDecodeError` (a `ValueError`) escape;
otherwise the parsed descriptor is returned.  Every invocation counts as
one disk read. -/
def session_from_file (w : World) (st : CallState) :
    CallState × Except Exc Session :=
  let st' := { st with diskReads := st.diskReads + 1 }
  match w.disk with
  | .valid s => (st', .ok s)
  | .invalid => (st', .error .jsonDecodeError)
  | .missing => (st', .error .serverNotRunning)

/-- `core._cache_session`. -/
def cache_session (server_name : String) (session : Session)
    (st : CallState) : CallState :=
  { st with cache := dictSet st.cache server_name session }

/-- The `if request_seems_to_have_failed:` block of
`core._send_request_from_cache` (lines 278-300).  `posted` is the outcome
of the cached attempt (a transport error, or a response that was not
`_response_ok`).  Re-read the session file (errors from the read — missing
or unparseable file — propagate); if the cached descriptor equals the one
on disk, re-raise the transport error or return the (bad) response; if it
differs, overwrite the cache with the fresh descriptor and make exactly
one more attempt with it, raising its transport error or returning its
response unexamined. -/
def cache_failure_fallback (w : World) (server_name : String)
    (cached_session : Session) (posted : Posted) (timeout : Option ℚ)
    (st : CallState) : CallState × Except Exc HttpResponse :=
  match session_from_file w st with
  | (st, .error e) => (st, .error e)
  | (st, .ok session_on_disk) =>
    if cached_session = session_on_disk then
      match posted with
      | .failed e => (st, .error (.requests e))
      | .resp response => (st, .ok response)
    else
      let st := cache_session server_name session_on_disk st
      match try_to_post w server_name session_on_disk timeout st with
      | (st, .error e) => (st, .error e)
      | (st, .ok (.failed e)) => (st, .error (.requests e))
      | (st, .ok (.resp response)) => (st, .ok response)

/-- `core._send_request_from_cache`.  Reads the cached descriptor
(`KeyError` if absent — the caller checks first), posts with it, and
computes `request_seems_to_have_failed = requests_error or not
_response_ok(response)` with Python short-circuiting: a transport error
means failure without consulting `_response_ok`; otherwise `_response_ok`
decides (and may itself raise).  On apparent failure control enters
`cache_failure_fallback`; otherwise the response is returned. -/
def send_request_from_cache (w : World) (server_name : String)
    (timeout : Option ℚ) (st : CallState) :
    CallState × Except Exc HttpResponse :=
  match st.cache.lookup server_name with
  | none => (st, .error .keyError)
  | some cached_session =>
    match try_to_post w server_name cached_session timeout st with
    | (st, .error e) => (st, .error e)
    | (st, .ok (.failed e)) =>
      cache_failure_fallback w server_name cached_session (.failed e) timeout st
    | (st, .ok (.resp response)) =>
      match response_ok response with
      | .error e => (st, .error e)
      | .ok true => (st, .ok response)
      | .ok false =>
        cache_failure_fallback w server_name cached_session (.resp response)
          timeout st

/-- `core._send_request_from_disk`: read the session file (read errors
propagate), post once with the descriptor; a transport error is re-raised
*without caching*; otherwise the descriptor is cached and the response
returned unexamined. -/
def send_request_from_disk (w : World) (server_name : String)
    (timeout : Option ℚ) (st : CallState) :
    CallState × Except Exc HttpResponse :=
  match session_from_file w st with
  | (st, .error e) => (st, .error e)
  | (st, .ok session) =>
    match try_to_post w server_name session timeout st with
    | (st, .error e) => (st, .error e)
    | (st, .ok (.failed e)) => (st, .error (.requests e))
    | (st, .ok (.resp response)) =>
      let st := cache_session server_name session st
      (st, .ok response)

/-- `core._send_request`: dispatch on `_session_info_cached`
(`server_name in _server_info_cache`). -/
def send_request (w : World) (server_name : String) (timeout : Option ℚ)
    (st : CallState) : CallState × Except Exc HttpResponse :=
  if (st.cache.lookup server_name).isSome then
    send_request_from_cache w server_name timeout st
  else
    send_request_from_disk w server_name timeout st

/-- The `try/except` of `core.call_raw` (lines 145-163): exceptions that
are `requests.exceptions.RequestException`s are translated.  A raw
`ConnectionError` becomes `ServerNotRunningError`; so does
`ServerNotRunningError` itself (it subclasses
`requests.exceptions.ConnectionError`, so the first `except` clause
catches and re-wraps it); a raw `Timeout` becomes porthole
`TimeoutError`; any other `RequestException` becomes
`ServerNotRunningError`.  Exceptions outside the `requests` hierarchy
(`ValueError`/`JSONDecodeError`, `AttributeError`, ...) propagate
unchanged. -/
def translate_requests_exc : Exc → Exc
  | .requests .connectionError => .serverNotRunning
  | .serverNotRunning => .serverNotRunning
  | .requests .timeout => .timeoutError
  | .requests .otherError => .serverNotRunning
  | e => e

/-- `core.call_raw`.  Validates the server name (before any I/O), builds
the request envelope, then sends it.  NOTE: line 146 of the source reads
`response = _send_request(server_name, request)` — the caller-supplied
`timeout` argument is *not* passed on, so `_send_request` runs with its
default `timeout=None`.  The response is then checked: a `_response_ok`
response has its JSON body returned; a 200 response that is not valid is
`StrangeResponseError`; anything else is `HTTPError`. -/
def call_raw (w : World) (server_name : PyVal) (timeout : Option ℚ)
    (st : CallState) : CallState × Except Exc Json :=
  match validate_server_name server_name, server_name with
  | .error e, _ => (st, .error e)
  | .ok _, .str name =>
    match send_request w name none st with
    | (st, .error e) => (st, .error (translate_requests_exc e))
    | (st, .ok response) =>
      match response_ok response with
      | .error e => (st, .error e)
      | .ok true =>
        match response.body with
        | .value v => (st, .ok v)
        | .invalid _ => (st, .error .valueError)
      | .ok false =>
        if response.status == 200 then (st, .error .strangeResponse)
        else (st, .error (.httpError response.status))
  | .ok _, _ => (st, .error .assertionError)

/-- The spec's server-name language `^[A-Za-z0-9-]+$` read as a
whole-string anchored match: non-empty, every character in the class.
(Comparison definition, written from the spec's words.) -/
def spec_server_name_ok (s : String) : Bool :=
  !s.data.isEmpty && s.data.all isNameChar

/-- "The attempt seems to have failed" (spec §4.6 step 4, source line
277): a transport failure occurred, or the response was not
`_response_ok`. -/
def seems_failed (x : Posted) : Prop :=
  match x with
  | .failed _ => True
  | .resp r => response_ok r = .ok false

/-- The Basic-auth rule the code actually implements (comparison
definition for the amended C8): credentials are sent iff at least one of
username/password is present *and non-empty*; each field defaults to the
empty string. -/
def send_auth (username password : Option String) : Option (String × String) :=
  if username.getD "" ≠ "" ∨ password.getD "" ≠ "" then
    some (username.getD "", password.getD "")
  else none

/-! ### Concrete fixtures used by the counterexamples and witnesses -/

/-- The empty initial call state: empty cache, no reads, no posts. -/
def st0 : CallState := ⟨[], 0, []⟩

/-- A session descriptor `{"port": 8000}`. -/
def sessA : Session := ⟨some 8000, none, none⟩

/-- A session descriptor `{"port": 8001}`. -/
def sessB : Session := ⟨some 8001, none, none⟩

/-- A well-formed JSON-RPC 2.0 success body. -/
def goodBody : Body :=
  .value (.obj [("jsonrpc", .str "2.0"), ("result", .num 6), ("id", .str "x")])

/-- A well-formed 200 response. -/
def goodResp : HttpResponse := ⟨200, some "application/json", goodBody⟩

/-- World: readable session file for `sessA`, server answers well-formed. -/
def wGood : World := ⟨.valid sessA, fun _ => .resp goodResp⟩

/-- World: readable session file, but every connection is refused. -/
def wConn : World := ⟨.valid sessA, fun _ => .failed .connectionError⟩

/-- World: the session file exists but is not parseable as JSON. -/
def wBadFile : World := ⟨.invalid, fun _ => .resp goodResp⟩

/-- Call state whose cache already holds `sessA` for `"my-server"`. -/
def stCachedA : CallState := ⟨[("my-server", sessA)], 0, []⟩

/-- World: session file still holds `sessA`, but the port answers 404. -/
def w404 : World :=
  ⟨.valid sessA, fun _ => .resp ⟨404, some "text/html", .invalid "nope"⟩⟩

/-- World: disk has moved on to `sessB`; the first POST is refused, the
second succeeds. -/
def wRetry : World :=
  ⟨.valid sessB, fun i => if i == 0 then .failed .connectionError else .resp goodResp⟩

/-- World: session file holds `sessA`, the port times out. -/
def wTimeout : World := ⟨.valid sessA, fun _ => .failed .timeout⟩

/-!  ## Theorems settling the claims  -/

/-- C1: the claim says every network attempt of a call uses the
caller-supplied timeout.  In the source, `call_raw` (line 146) invokes
`_send_request(server_name, request)` without forwarding its `timeout`
argument, so the attempt always runs with `DEFAULT_TIMEOUT`: here a call
made with caller timeout 5 performs its one POST with timeout 1 ≠ 5. -/
theorem C1_caller_timeout_ignored :
    (call_raw wGood (.str "my-server") (some 5) st0).1.posts.map PostRecord.timeout
        = [DEFAULT_TIMEOUT]
      ∧ DEFAULT_TIMEOUT ≠ (5 : ℚ)
      ∧ (call_raw wGood (.str "my-server") (some 5) st0).1.posts.length = 1 :=
  ⟨rfl, by decide, rfl⟩

/-- C2, counterexample: with a session file that exists but is not
parseable as JSON, the call fails with the `json.load` decode error
(a `ValueError`), not with `ServerNotRunningError` as the claim states. -/
theorem C2_counterexample :
    (call_raw wBadFile (.str "my-server") none st0).2 = .error .jsonDecodeError
      ∧ Exc.jsonDecodeError ≠ Exc.serverNotRunning :=
  ⟨rfl, by decide⟩

/-- C2, amended: a session-store read fails with `ServerNotRunningError`
when the file is missing, but an existing-yet-unparseable file raises the
JSON decode error (a `ValueError`), which is not translated. -/
theorem C2_read_failure_classification (w : World) (st : CallState) :
    (w.disk = .missing →
      (session_from_file w st).2 = .error .serverNotRunning)
      ∧ (w.disk = .invalid →
        (session_from_file w st).2 = .error .jsonDecodeError) := by
  constructor <;> intro h <;> simp [session_from_file, h]

/-- Witness for C2's amended theorem at the two concrete worlds. -/
theorem C2_read_failure_classification_witness :
    (session_from_file ⟨.missing, fun _ => .failed .connectionError⟩ st0).2
        = .error .serverNotRunning
      ∧ (session_from_file wBadFile st0).2 = .error .jsonDecodeError :=
  ⟨(C2_read_failure_classification ⟨.missing, fun _ => .failed .connectionError⟩ st0).1 rfl,
   (C2_read_failure_classification wBadFile st0).2 rfl⟩

/-- C3, counterexample: with no cache entry, a readable session file and a
refused connection, the file is read (once) but the cache is *not*
populated — the transport error is re-raised before `_cache_session`
runs — contradicting "the cache is populated ... regardless of whether
the subsequent delivery attempt succeeds or fails". -/
theorem C3_counterexample :
    (call_raw wConn (.str "my-server") none st0).1.diskReads = 1
      ∧ (call_raw wConn (.str "my-server") none st0).1.cache = []
      ∧ (call_raw wConn (.str "my-server") none st0).2 = .error .serverNotRunning :=
  ⟨rfl, rfl, rfl⟩

/-- C5, counterexample: cached descriptor equal to the on-disk one, and
the port answers with a non-200 (404) response, which is not well-formed;
the claim classifies every not-well-formed response as
`UnexpectedResponse` (`StrangeResponseError`), but the code raises
`HTTPError` for non-200 statuses. -/
theorem C5_counterexample :
    (call_raw w404 (.str "my-server") none stCachedA).2 = .error (.httpError 404)
      ∧ Exc.httpError 404 ≠ Exc.strangeResponse :=
  ⟨rfl, by decide⟩

/-- C6: the claim says every string outside `^[A-Za-z0-9-]+$` is rejected
before any I/O.  Python's `$` also matches just before a trailing
newline, so `validate_server_name` accepts `"a\n"`, which is not in the
claim's language. -/
theorem C6_validator_accepts_trailing_newline :
    validate_server_name (.str "a\n") = .ok ()
      ∧ spec_server_name_ok "a\n" = false :=
  ⟨rfl, by decide⟩

/-- C7: the claim says the well-formedness check is a total boolean
function.  On a 200 JSON response whose body decodes to a JSON array,
`valid_response` evaluates `response.get("id")` before its
`isinstance(response, dict)` test and raises `AttributeError`; on a JSON
number it raises `TypeError` at `"id" in response`. -/
theorem C7_validator_raises_on_nonmapping :
    response_ok ⟨200, some "application/json", .value (.arr [.num 1, .num 2, .num 3])⟩
        = .error .attributeError
      ∧ valid_response (.num 5) = .error .typeError
      ∧ valid_response (.str "an id string") = .error .attributeError :=
  ⟨rfl, rfl, rfl⟩

/-- C8, counterexample: a descriptor with `username` present as the empty
string (`password` absent) is POSTed with *no* Basic auth (`auth=None`),
because `if username or password:` treats the empty string as falsy; the
claim requires Basic auth with empty fields. -/
theorem C8_counterexample :
    (try_to_post wGood "my-server" ⟨some 8000, some "", none⟩ none st0).1.posts.map
        PostRecord.auth = [none]
      ∧ (none : Option (String × String)) ≠ some ("", "") :=
  ⟨rfl, by decide⟩

/-- C9: the claim says every key ever inserted into the session cache
matches `^[A-Za-z0-9-]+$`.  Because the validator accepts `"a\n"`
(trailing-newline `$` match), a successful call for that name inserts the
key `"a\n"`, which is outside the claim's language. -/
theorem C9_cache_key_outside_language :
    (call_raw wGood (.str "a\n") none st0).1.cache.map Prod.fst = ["a\n"]
      ∧ spec_server_name_ok "a\n" = false :=
  ⟨rfl, by decide⟩

/-- `cache_failure_fallback` when the fresh disk read agrees with the
cached descriptor: one disk read, nothing else changes, and the original
outcome is surfaced (transport error re-raised, response returned). -/
theorem fallback_equal (w : World) (name : String) (cached : Session)
    (posted : Posted) (t : Option ℚ) (st : CallState)
    (hdisk : w.disk = .valid cached) :
    cache_failure_fallback w name cached posted t st
      = ({ st with diskReads := st.diskReads + 1 },
         match posted with
         | .failed e => .error (.requests e)
         | .resp r => .ok r) := by
  cases posted <;> simp [cache_failure_fallback, session_from_file, hdisk]

/-- `cache_failure_fallback` when the fresh disk read differs from the
cached descriptor: one disk read, the cache is overwritten with the fresh
descriptor, exactly one more POST is made with it, and that attempt's
outcome is surfaced. -/
theorem fallback_stale (w : World) (name : String) (cached fresh : Session)
    (posted : Posted) (t : Option ℚ) (st : CallState) (p2 : Int)
    (hdisk : w.disk = .valid fresh) (hne : cached ≠ fresh)
    (hp2 : fresh.port = some p2) :
    (cache_failure_fallback w name cached posted t st).1.cache
        = dictSet st.cache name fresh
      ∧ (cache_failure_fallback w name cached posted t st).1.diskReads
          = st.diskReads + 1
      ∧ (cache_failure_fallback w name cached posted t st).1.posts.map
            PostRecord.session
          = st.posts.map PostRecord.session ++ [fresh]
      ∧ (∀ r2, w.net st.posts.length = .resp r2 →
          (cache_failure_fallback w name cached posted t st).2 = .ok r2)
      ∧ (∀ e2, w.net st.posts.length = .failed e2 →
          (cache_failure_fallback w name cached posted t st).2
            = .error (.requests e2)) := by
  simp only [cache_failure_fallback, session_from_file, hdisk]
  simp only [cache_session, hne, if_neg]
  simp only [try_to_post, hp2]
  refine ⟨?_, ?_, ?_, ?_, ?_⟩
  · cases h : w.net st.posts.length <;> simp [h]
  · cases h : w.net st.posts.length <;> simp [h]
  · cases h : w.net st.posts.length <;> simp [h]
  · intro r2 h; simp [h]
  · intro e2 h; simp [h]

/-- A successful-signature post: with a port present, `_try_to_post`
appends exactly one post record (targeting the given descriptor) and
returns the network outcome of the next post index. -/
theorem try_to_post_state (w : World) (name : String) (s : Session)
    (t : Option ℚ) (st : CallState) (p : Int) (hp : s.port = some p) :
    ∃ rec : PostRecord, rec.session = s ∧
      try_to_post w name s t st
        = ({ st with posts := st.posts ++ [rec] }, .ok (w.net st.posts.length)) := by
  refine ⟨⟨s, construct_address p,
    (if truthyOptStr s.username || truthyOptStr s.password then
      some (orEmpty s.username, orEmpty s.password) else none),
    (match t with
     | none => DEFAULT_TIMEOUT
     | some x => if x == 0 then DEFAULT_TIMEOUT else x)⟩, rfl, ?_⟩
  simp [try_to_post, hp]

/-- C3, amended: with no cache entry and a readable session file, the
file is read exactly once; the cache is populated with the descriptor iff
the delivery attempt returns an HTTP response (well-formed or not) — on a
transport error the error is re-raised *without* populating the cache. -/
theorem C3_disk_read_then_conditional_cache (w : World) (name : String)
    (t : Option ℚ) (st : CallState) (s : Session) (p : Int)
    (hdisk : w.disk = .valid s) (hport : s.port = some p) :
    (send_request_from_disk w name t st).1.diskReads = st.diskReads + 1
      ∧ (∀ r, w.net st.posts.length = .resp r →
          (send_request_from_disk w name t st).1.cache = dictSet st.cache name s
            ∧ (send_request_from_disk w name t st).2 = .ok r)
      ∧ (∀ e, w.net st.posts.length = .failed e →
          (send_request_from_disk w name t st).1.cache = st.cache
            ∧ (send_request_from_disk w name t st).2 = .error (.requests e)) := by
  simp only [send_request_from_disk, session_from_file, hdisk, try_to_post, hport,
    cache_session]
  refine ⟨?_, ?_, ?_⟩
  · cases h : w.net st.posts.length <;> simp [h]
  · intro r h; simp [h]
  · intro e h; simp [h]

/-- Witness for C3's amended theorem: readable file `sessA`, connection
refused — the disk was read, the cache stays empty, the error propagates. -/
theorem C3_disk_read_then_conditional_cache_witness :
    (send_request_from_disk wConn "my-server" none st0).1.cache = st0.cache
      ∧ (send_request_from_disk wConn "my-server" none st0).2
          = .error (.requests .connectionError) :=
  (C3_disk_read_then_conditional_cache wConn "my-server" none st0 sessA 8000
    rfl rfl).2.2 .connectionError rfl

/-- C4: when the cached attempt seems to have failed and the
freshly-read on-disk descriptor differs from the cached one, the cache is
overwritten with the fresh descriptor, exactly one additional POST is
made (using the fresh descriptor, after the one cached attempt), exactly
one disk read happens, and the second attempt's outcome is surfaced
directly: its response is returned, its transport error is re-raised. -/
theorem C4_stale_cache_single_retry (w : World) (name : String)
    (t : Option ℚ) (st : CallState) (cached fresh : Session) (p p2 : Int)
    (hc : st.cache.lookup name = some cached)
    (hp : cached.port = some p)
    (hdisk : w.disk = .valid fresh)
    (hne : cached ≠ fresh)
    (hp2 : fresh.port = some p2)
    (hfail : seems_failed (w.net st.posts.length)) :
    (send_request_from_cache w name t st).1.cache = dictSet st.cache name fresh
      ∧ (send_request_from_cache w name t st).1.diskReads = st.diskReads + 1
      ∧ (send_request_from_cache w name t st).1.posts.map PostRecord.session
          = st.posts.map PostRecord.session ++ [cached, fresh]
      ∧ (∀ r2, w.net (st.posts.length + 1) = .resp r2 →
          (send_request_from_cache w name t st).2 = .ok r2)
      ∧ (∀ e2, w.net (st.posts.length + 1) = .failed e2 →
          (send_request_from_cache w name t st).2 = .error (.requests e2)) := by
  obtain ⟨rec1, hrec1, heq1⟩ := try_to_post_state w name cached t st p hp
  have hfb := fun posted => fallback_stale w name cached fresh posted t
    { st with posts := st.posts ++ [rec1] } p2 hdisk hne hp2
  simp only [List.length_append, List.length_cons, List.length_nil,
    List.map_append, List.map_cons, List.map_nil, hrec1] at hfb
  cases hout : w.net st.posts.length with
  | failed e =>
    have h := hfb (.failed e)
    simp only [send_request_from_cache, hc, heq1, hout]
    simpa using h
  | resp r =>
    rw [hout] at hfail
    have hro : response_ok r = .ok false := hfail
    have h := hfb (.resp r)
    simp only [send_request_from_cache, hc, heq1, hout, hro]
    simpa using h

/-- Witness for C4: cache holds `sessA` (port 8000), disk now holds
`sessB` (port 8001), port 8000 refuses, port 8001 answers — the cache is
updated to `sessB`, two posts happen (`sessA` then `sessB`), and the
second response is returned. -/
theorem C4_stale_cache_single_retry_witness :
    (send_request_from_cache wRetry "my-server" none stCachedA).1.cache
        = dictSet stCachedA.cache "my-server" sessB
      ∧ (send_request_from_cache wRetry "my-server" none stCachedA).1.posts.map
            PostRecord.session = [sessA, sessB]
      ∧ (send_request_from_cache wRetry "my-server" none stCachedA).2
          = .ok goodResp := by
  have h := C4_stale_cache_single_retry wRetry "my-server" none stCachedA
    sessA sessB 8000 8001 rfl rfl rfl (by decide) rfl trivial
  exact ⟨h.1, h.2.2.1, h.2.2.2.1 goodResp rfl⟩

/-- C5, amended: when the cached attempt seems to have failed and the
fresh disk read equals the cached descriptor, no second POST is made
(exactly one post, one disk re-read, cache unchanged) and the original
failure is surfaced classified by kind: a timeout as porthole
`TimeoutError`, a connection-level failure (and any other transport
error) as `ServerNotRunningError`, and a not-well-formed response as
`StrangeResponseError` *only when its status is 200* — with any other
status it surfaces as `HTTPError` instead. -/
theorem C5_equal_descriptor_first_failure (w : World) (name : String)
    (t : Option ℚ) (st : CallState) (cached : Session) (p : Int)
    (hname : re_match_server_name name = true)
    (hc : st.cache.lookup name = some cached)
    (hp : cached.port = some p)
    (hdisk : w.disk = .valid cached) :
    (w.net st.posts.length = .failed .timeout →
        (call_raw w (.str name) t st).2 = .error .timeoutError)
      ∧ (w.net st.posts.length = .failed .connectionError →
          (call_raw w (.str name) t st).2 = .error .serverNotRunning)
      ∧ (w.net st.posts.length = .failed .otherError →
          (call_raw w (.str name) t st).2 = .error .serverNotRunning)
      ∧ (∀ r, w.net st.posts.length = .resp r → response_ok r = .ok false →
          (call_raw w (.str name) t st).2
            = (if r.status == 200 then .error .strangeResponse
               else .error (.httpError r.status)))
      ∧ (seems_failed (w.net st.posts.length) →
          (call_raw w (.str name) t st).1.posts.length = st.posts.length + 1
            ∧ (call_raw w (.str name) t st).1.diskReads = st.diskReads + 1
            ∧ (call_raw w (.str name) t st).1.cache = st.cache) := by
  obtain ⟨rec1, hrec1, heq1⟩ := try_to_post_state w name cached none st p hp
  have hfb := fun posted => fallback_equal w name cached posted none
    { st with posts := st.posts ++ [rec1] } hdisk
  refine ⟨?_, ?_, ?_, ?_, ?_⟩
  · intro hout
    have h := hfb (.failed .timeout)
    simp [call_raw, validate_server_name, hname, send_request, hc, heq1, hout,
      send_request_from_cache, h, translate_requests_exc]
  · intro hout
    have h := hfb (.failed .connectionError)
    simp [call_raw, validate_server_name, hname, send_request, hc, heq1, hout,
      send_request_from_cache, h, translate_requests_exc]
  · intro hout
    have h := hfb (.failed .otherError)
    simp [call_raw, validate_server_name, hname, send_request, hc, heq1, hout,
      send_request_from_cache, h, translate_requests_exc]
  · intro r hout hro
    have h := hfb (.resp r)
    simp [call_raw, validate_server_name, hname, send_request, hc, heq1, hout,
      send_request_from_cache, hro, h]
    split_ifs <;> rfl
  · intro hfail
    cases hout : w.net st.posts.length with
    | failed e =>
      have h := hfb (.failed e)
      cases e <;>
        simp [call_raw, validate_server_name, hname, send_request, hc, heq1, hout,
          send_request_from_cache, h, translate_requests_exc]
    | resp r =>
      rw [hout] at hfail
      have hro : response_ok r = .ok false := hfail
      have h := hfb (.resp r)
      by_cases h200 : r.status == 200 <;>
        simp [call_raw, validate_server_name, hname, send_request, hc, heq1, hout,
          send_request_from_cache, hro, h, h200]

/-- Witness for C5's amended theorem: cache and disk both hold `sessA`,
and the port answers 404 — the call raises `HTTPError 404` after exactly
one post and one disk re-read, with the cache untouched. -/
theorem C5_equal_descriptor_first_failure_witness :
    (call_raw w404 (.str "my-server") none stCachedA).2 = .error (.httpError 404)
      ∧ (call_raw w404 (.str "my-server") none stCachedA).1.posts.length = 1
      ∧ (call_raw w404 (.str "my-server") none stCachedA).1.cache
          = stCachedA.cache := by
  have h := C5_equal_descriptor_first_failure w404 "my-server" none stCachedA
    sessA 8000 rfl rfl rfl rfl
  refine ⟨?_, (h.2.2.2.2 rfl).1, (h.2.2.2.2 rfl).2.2⟩
  have := h.2.2.2.1 ⟨404, some "text/html", .invalid "nope"⟩ rfl rfl
  simpa using this

/-- C8, amended: for every descriptor with a port, the POST carries Basic
auth exactly when username or password is present *and non-empty*, each
field defaulting to the empty string; both-absent and both-blank
descriptors are sent without auth. -/
theorem C8_auth_iff_nonempty_credential (w : World) (name : String)
    (s : Session) (p : Int) (t : Option ℚ) (st : CallState)
    (hp : s.port = some p) :
    (try_to_post w name s t st).1.posts.map PostRecord.auth
      = st.posts.map PostRecord.auth ++ [send_auth s.username s.password] := by
  simp [try_to_post, hp]
  cases hu : s.username <;> cases hpw : s.password <;>
    simp_all [truthyOptStr, orEmpty, send_auth] <;>
    split_ifs <;> simp_all

/-- Witness for C8's amended theorem: username `"u"`, password present
but blank — Basic auth `("u", "")` is sent. -/
theorem C8_auth_iff_nonempty_credential_witness :
    (try_to_post wGood "my-server" ⟨some 8000, some "u", some ""⟩ none st0).1.posts.map
        PostRecord.auth = [some ("u", "")] := by
  have h := C8_auth_iff_nonempty_credential wGood "my-server"
    ⟨some 8000, some "u", some ""⟩ 8000 none st0 rfl
  simpa [st0, send_auth] using h

/-- C10: a non-string server name (an integer, or `None`) makes
`validate_server_name`'s `assert isinstance(server_name, str)` fail, so
`call_raw` raises `AssertionError` — not `ValueError` — with the state
untouched (no disk read, no POST). -/
theorem C10_nonstring_name_assertion_error (w : World) (n : Int)
    (t : Option ℚ) (st : CallState) :
    call_raw w (.int n) t st = (st, .error .assertionError)
      ∧ call_raw w .pyNone t st = (st, .error .assertionError) :=
  ⟨rfl, rfl⟩

end Porthole
